import Mathlib

/-!
Verification of the Traffic-Test-DRF stock reservation engine.

The definitions below are a shallow embedding of the Django services in
`apps/products/services/` (stock_service.py, stock_maintenance.py,
enhanced_stock_service.py, optimistic_stock_service.py) together with the
data model of `apps/products/models.py`.

Modelling conventions:
* the relational store is a `DB` value: one `ProductStock` row per product,
  a list of `StockReservation` rows, an append-only list of
  `StockTransaction` rows;
* machine integers are `Int` (stock counts) and `Nat` (row ids, versions);
  time is an `Int` counted in minutes (`DB.now`);
* a Django `@transaction.atomic` body is a pure function `DB -> result x DB`;
  a path that raises an exception returns the *unchanged* input `DB`
  (rollback), a path that returns normally returns the mutated `DB`
  (commit) - `transaction.atomic` commits on a normal return from the
  with-block, even when the returned value reports a business failure;
* the database check constraints of `ProductStock.Meta.constraints`
  (`physical_stock >= 0`, `reserved_stock >= 0`) are evaluated at commit
  time: a violated constraint raises `IntegrityError`, which the services
  catch, so the mutation rolls back and a failure result is returned.
-/

namespace TrafficStock

/-- Status values of `StockReservationStatus` in models.py. -/
inductive RStatus where
  | pending
  | confirmed
  | cancelled
  | expired
deriving DecidableEq, Repr

/-- Transaction types of `StockTransactionType` in models.py. -/
inductive TxType where
  | inbound
  | outbound
  | reserveTx
  | releaseTx
  | adjust
  | returnTx
  | transfer
deriving DecidableEq, Repr

/-- One `ProductStock` row (models.py).  `updated_at` is the
modification timestamp that the optimistic services use as a version
token; we model it as a bare counter. -/
structure ProductStock where
  productId : Nat
  physical_stock : Int
  reserved_stock : Int
  available_stock : Int
  min_stock_level : Int
  reorder_point : Int
  warehouse_code : String
  updated_at : Nat
deriving DecidableEq, Repr

/-- One `StockReservation` row (models.py).  The `product_stock` foreign
key is represented by the product id, since a `ProductStock` is one-to-one
with its product. -/
structure StockReservation where
  rid : Nat
  productId : Nat
  quantity : Int
  order_id : String
  user_id : Nat
  status : RStatus
  expires_at : Int
  confirmed_at : Option Int
  cancelled_at : Option Int
  cancellation_reason : String
  created_at : Int
deriving DecidableEq, Repr

/-- One `StockTransaction` row (models.py), with the before/after
snapshot columns filled in by `_create_transaction_log`. -/
structure StockTransaction where
  productId : Nat
  transaction_type : TxType
  quantity : Int
  reference_type : String
  reference_id : String
  before_physical : Int
  after_physical : Int
  before_available : Int
  after_available : Int
deriving DecidableEq, Repr

/-- A `django.contrib.auth` user, reduced to what the services read. -/
structure User where
  uid : Nat
  is_superuser : Bool
deriving DecidableEq, Repr

/-- The persistent state the services operate on.  `products` is the set
of existing `Product` rows (by id); `now` is `timezone.now()` in minutes. -/
structure DB where
  products : List Nat
  stocks : List ProductStock
  reservations : List StockReservation
  transactions : List StockTransaction
  nextRid : Nat
  now : Int
deriving DecidableEq, Repr

/-- Python exceptions that escape or drive control flow in the services. -/
inductive PyExc where
  | fieldError
  | typeError
deriving DecidableEq, Repr

/-- The database check constraints of `ProductStock.Meta.constraints`:
`physical_stock_non_negative` and `reserved_stock_non_negative`.  There is
no constraint on `available_stock`. -/
abbrev constraintsOk (s : ProductStock) : Prop :=
  0 ≤ s.physical_stock ∧ 0 ≤ s.reserved_stock

/-- Lookup `ProductStock.objects.get(product__id=...)`:
the one stock row of a product. -/
def findStock (db : DB) (pid : Nat) : Option ProductStock :=
  db.stocks.find? (fun t => t.productId == pid)

/-- Lookup `StockReservation.objects.get(id=...)`. -/
def findRes (db : DB) (rid : Nat) : Option StockReservation :=
  db.reservations.find? (fun t => t.rid == rid)

/-- Write-back `stock.save(...)`: replace the row keyed by the product id of s'. -/
def replStock (stocks : List ProductStock) (s' : ProductStock) : List ProductStock :=
  stocks.map (fun t => if t.productId = s'.productId then s' else t)

/-- Write-back `reservation.save(...)`: replace the row keyed by the id of r'. -/
def replRes (rs : List StockReservation) (r' : StockReservation) : List StockReservation :=
  rs.map (fun t => if t.rid = r'.rid then r' else t)

/-- The ledger update of `StockService.reserve_stock`:
`reserved_stock = F(reserved_stock) + quantity`,
`available_stock = F(available_stock) - quantity`. -/
def applyReserve (s : ProductStock) (q : Int) : ProductStock :=
  { s with reserved_stock := s.reserved_stock + q
           available_stock := s.available_stock - q }

/-- The ledger update of `StockService.confirm_reservation`:
`reserved_stock = F(reserved_stock) - quantity`,
`available_stock = F(available_stock) - quantity`
(`physical_stock` is not touched). -/
def applyConfirm (s : ProductStock) (q : Int) : ProductStock :=
  { s with reserved_stock := s.reserved_stock - q
           available_stock := s.available_stock - q }

/-- The ledger update of `StockService.cancel_reservation` for a
never-confirmed reservation:
`reserved_stock = F(reserved_stock) - quantity`,
`available_stock = F(available_stock) + quantity`. -/
def applyRelease (s : ProductStock) (q : Int) : ProductStock :=
  { s with reserved_stock := s.reserved_stock - q
           available_stock := s.available_stock + q }

/-- The ledger update of `StockService.inbound_stock`:
`physical_stock = F(physical_stock) + quantity`,
`available_stock = F(available_stock) + quantity`. -/
def applyInbound (s : ProductStock) (q : Int) : ProductStock :=
  { s with physical_stock := s.physical_stock + q
           available_stock := s.available_stock + q }

/-- Log builder `StockService._create_transaction_log`: after `stock.refresh_from_db()`
the snapshot columns are reconstructed from the already-committed values
(`s` is the committed row). -/
def mkTxLog (s : ProductStock) (ty : TxType) (q : Int)
    (reference_type reference_id : String) : StockTransaction :=
  { productId := s.productId
    transaction_type := ty
    quantity := q
    reference_type := reference_type
    reference_id := reference_id
    before_physical := s.physical_stock - (if ty = TxType.inbound then q else 0)
    after_physical := s.physical_stock
    before_available := s.available_stock -
      (if ty = TxType.inbound ∨ ty = TxType.outbound then q else 0)
    after_available := s.available_stock }

/-- Python `duration_minutes or DEFAULT_RESERVATION_DURATION`: `None` and
`0` are both falsy, so both fall back to the 30-minute default. -/
def durationOf : Option Int → Int
  | none => 30
  | some d => if d = 0 then 30 else d

/-- Result type `StockCheckResult` of stock_service.py. -/
structure StockCheckResult where
  is_available : Bool
  available_quantity : Int
  request_quantity : Int
  message : String
deriving DecidableEq, Repr

/-- Result type `ReservationResult` of stock_service.py; the created reservation is
referenced by id. -/
structure ReservationResult where
  success : Bool
  reservation : Option Nat
  error_message : String
  error_code : String
deriving DecidableEq, Repr

/-- The filter kwarg literal of `StockService.check_availablity`:
`ProductStock.objects.select_related("product").get(product___id=product_id)` -
note the *triple* underscore. -/
def checkAvailabilityKwarg : String := "product___id"

/-- Worker for `lookupParts`: splits a character list on each
non-overlapping occurrence of the double underscore, scanning left to
right, exactly like the Python `str.split("__")` Django applies to filter
kwargs. -/
def kwargSplitGo : List Char → List Char → List String
  | [], acc => [String.mk acc.reverse]
  | [c], acc => [String.mk (acc.reverse ++ [c])]
  | c1 :: c2 :: rest, acc =>
      if c1 = '_' ∧ c2 = '_' then
        String.mk acc.reverse :: kwargSplitGo rest []
      else
        kwargSplitGo (c2 :: rest) (c1 :: acc)

/-- Django resolves a filter kwarg by splitting it on `"__"`. -/
def lookupParts (kwarg : String) : List String := kwargSplitGo kwarg.toList []

/-- The concrete field names of the `Product` model (models.py). -/
def productFieldNames : List String :=
  ["id", "name", "description", "status", "price", "created_at", "updated_at"]

/-- Whether a `ProductStock` filter kwarg of the form `product__<field>`
resolves: the part after `product` must name a `Product` field, otherwise
Django raises `FieldError` when the queryset is evaluated. -/
def validStockProductLookup (kwarg : String) : Bool :=
  match lookupParts kwarg with
  | ["product"] => true
  | ["product", f] => productFieldNames.contains f
  | _ => false

/-- Method `StockService.check_availablity`.  The method only catches
`ProductStock.DoesNotExist`; the `FieldError` raised by an unresolvable
kwarg propagates to the caller. -/
def check_availablity (db : DB) (product_id : Nat) (quantity : Int)
    (include_reserved : Bool) : Except PyExc StockCheckResult :=
  if validStockProductLookup checkAvailabilityKwarg then
    match findStock db product_id with
    | some stock =>
        let available :=
          if include_reserved then stock.physical_stock else stock.available_stock
        Except.ok
          { is_available := decide (quantity ≤ available)
            available_quantity := available
            request_quantity := quantity
            message := if quantity ≤ available then "재고 가용성 확인 완료" else "재고 부족" }
    | none =>
        Except.ok
          { is_available := false
            available_quantity := 0
            request_quantity := quantity
            message := "상품을 찾을 수 없습니다." }
  else
    Except.error PyExc.fieldError

/-- Method `StockService.reserve_stock`.  Here `duration_minutes or DEFAULT` is Python
truthiness: `none` and `some 0` both fall back to the 30-minute default. -/
def reserve_stock (db : DB) (product_id : Nat) (quantity : Int) (user : User)
    (order_id : String) (duration_minutes : Option Int) : ReservationResult × DB :=
  if quantity ≤ 0 then
    ({ success := false, reservation := none
       error_message := "예약 수량은 0보다 크야야 합니다.", error_code := "INVALID_QUANTITY" }, db)
  else
    match findStock db product_id with
    | none =>
        ({ success := false, reservation := none
           error_message := "상품 재고 정보를 찾을 수 없습니다", error_code := "STOCK_NOT_FOUND" }, db)
    | some stock =>
        if stock.available_stock < quantity then
          ({ success := false, reservation := none
             error_message := "재고 부족", error_code := "INSUFFICIENT_STOCK" }, db)
        else
          let duration := durationOf duration_minutes
          let res : StockReservation :=
            { rid := db.nextRid
              productId := product_id
              quantity := quantity
              order_id := order_id
              user_id := user.uid
              status := RStatus.pending
              expires_at := db.now + duration
              confirmed_at := none
              cancelled_at := none
              cancellation_reason := ""
              created_at := db.now }
          let stock' := applyReserve stock quantity
          if constraintsOk stock' then
            let db' : DB :=
              { db with
                  stocks := replStock db.stocks stock'
                  reservations := db.reservations ++ [res]
                  nextRid := db.nextRid + 1
                  transactions := db.transactions ++
                    [mkTxLog stock' TxType.reserveTx quantity "reservation" (toString res.rid)] }
            ({ success := true, reservation := some res.rid
               error_message := "", error_code := "" }, db')
          else
            ({ success := false, reservation := none
               error_message := "재고 예약 처리 중 오류가 발생했습니다", error_code := "RESERVATION_ERROR" }, db)

/-- Method `StockService.confirm_reservation`. -/
def confirm_reservation (db : DB) (reservation_id : Nat) (user : User) :
    (Bool × String) × DB :=
  if !user.is_superuser then
    ((false, "예약 확정 권한이 없습니다"), db)
  else
    match findRes db reservation_id with
    | none => ((false, "예약 정보를 찾을 수 없습니다"), db)
    | some r =>
        if r.status ≠ RStatus.pending then
          ((false, "예약 상태가 올바르지 않습니다"), db)
        else if r.expires_at < db.now then
          ((false, "예약 만료"), db)
        else
          match findStock db r.productId with
          | none => ((false, "재고 정보를 찾을 수 없습니다"), db)
          | some stock =>
              let r' := { r with status := RStatus.confirmed, confirmed_at := some db.now }
              let stock' := applyConfirm stock r.quantity
              if constraintsOk stock' then
                let db' : DB :=
                  { db with
                      stocks := replStock db.stocks stock'
                      reservations := replRes db.reservations r'
                      transactions := db.transactions ++
                        [mkTxLog stock' TxType.outbound r.quantity "order" r.order_id] }
                ((true, "예약 확정 성공"), db')
              else
                ((false, "예약 확정 처리 중 오류가 발생했습니다"), db)

/-- Method `StockService.cancel_reservation`. -/
def cancel_reservation (db : DB) (reservation_id : Nat) (user : User)
    (reason : String) (force : Bool) : (Bool × String) × DB :=
  match findRes db reservation_id with
  | none => ((false, "예약 정보를 찾을 수 없습니다"), db)
  | some r =>
      if r.status = RStatus.cancelled then
        ((false, "이미 취소된 예약입니다"), db)
      else if force ∧ !user.is_superuser then
        ((false, "강제 취소 권한이 없습니다"), db)
      else if ¬(user.is_superuser ∨ r.user_id = user.uid) then
        ((false, "예약 취소 권한이 없습니다"), db)
      else if ¬force ∧ r.status ≠ RStatus.pending then
        ((false, "대기 중인 예약만 해제 가능합니다"), db)
      else
        match findStock db r.productId with
        | none => ((false, "재고 정보를 찾을 수 없습니다"), db)
        | some stock =>
            let r' := { r with status := RStatus.cancelled
                               cancelled_at := some db.now
                               cancellation_reason := reason }
            let stock' :=
              if r.confirmed_at = none then applyRelease stock r.quantity else stock
            if constraintsOk stock' then
              let db' : DB :=
                { db with
                    stocks := replStock db.stocks stock'
                    reservations := replRes db.reservations r'
                    transactions := db.transactions ++
                      [mkTxLog stock' TxType.releaseTx r.quantity "reservation" (toString r.rid)] }
              ((true, "예약 취소 성공"), db')
            else
              ((false, "예약 취소 처리 중 오류가 발생했습니다"), db)

/-- The default `ProductStock` row inserted by
`get_or_create(product=product)` in `inbound_stock`: the model defaults of
models.py (all counts zero, warehouse code "3077006"). -/
def defaultStockRow (pid : Nat) : ProductStock :=
  { productId := pid, physical_stock := 0, reserved_stock := 0
    available_stock := 0, min_stock_level := 0, reorder_point := 0
    warehouse_code := "3077006", updated_at := 0 }

/-- Method `StockService.inbound_stock`.  Here `get_or_create(product=product)` inserts
a fresh row with the model defaults when none exists; the subsequent
in-memory assignment `stock.warehouse_code = warehouse_code or "3077006"`
is never persisted, because the only save is
`stock.save(update_fields=["physical_stock", "available_stock"])`.
A missing `Product` raises `Product.DoesNotExist`, which is caught by the
generic `except Exception` handler. -/
def inbound_stock (db : DB) (product_id : Nat) (quantity : Int)
    (warehouse_code : Option String) (user : User) : (Bool × String) × DB :=
  if !user.is_superuser then
    ((false, "재고 입고 권한이 없습니다"), db)
  else if ¬(product_id ∈ db.products) then
    ((false, "재고 입고 처리 중 오류가 발생했습니다"), db)
  else
    let created : ProductStock := defaultStockRow product_id
    let (stock, stocksNow) := match findStock db product_id with
      | some s => (s, db.stocks)
      | none => (created, db.stocks ++ [created])
    let stock' := applyInbound stock quantity
    if constraintsOk stock' then
      let db' : DB :=
        { db with
            stocks := replStock stocksNow stock'
            transactions := db.transactions ++
              [mkTxLog stock' TxType.inbound quantity "inbound"
                ("INBOUND-" ++ toString stock.productId)] }
      ((true, "재고 입고 성공"), db')
    else
      ((false, "재고 입고 처리 중 오류가 발생했습니다"), db)

/-- The call site of `StockMaintenanceService.clean_expired_reservations`:
`stock_service.cancel_reservation(reservation.id, reason="예약 시간 만료", force=True)`.
`StockService.cancel_reservation(self, reservation_id, user, reason=None,
force=False)` has a *required* positional parameter `user` that this call
omits, so Python raises `TypeError` at the call, before the method body
runs. -/
def sweeper_cancel_call : Except PyExc (Bool × String) :=
  Except.error PyExc.typeError

/-- The `for reservation in expired_reservations` loop of
`clean_expired_reservations`, counting successful cancellations.  An
exception raised by an iteration propagates out of the loop (there is no
try/except around the body). -/
def sweepLoop : List StockReservation → Nat → Except PyExc Nat
  | [], count => Except.ok count
  | _r :: rest, count =>
      match sweeper_cancel_call with
      | Except.error e => Except.error e
      | Except.ok (success, _msg) =>
          sweepLoop rest (if success then count + 1 else count)

/-- Method `StockMaintenanceService.clean_expired_reservations`:
selects the PENDING reservations with `expires_at < now` and iterates over
them.  It runs under `@transaction.atomic`, so when the loop raises, the
whole sweep rolls back and the state is unchanged.  (The `Except.ok`
branch with a non-empty selection is unreachable because every iteration
raises `TypeError`; with an empty selection the state is untouched.) -/
def clean_expired_reservations (db : DB) : Except PyExc Nat × DB :=
  let expired := db.reservations.filter
    (fun r => decide (r.status = RStatus.pending ∧ r.expires_at < db.now))
  match sweepLoop expired 0 with
  | Except.ok n => (Except.ok n, db)
  | Except.error e => (Except.error e, db)

/-- Method `StockMaintenanceService.recalculate_stock_availability`:
`reserved_stock` becomes the summed quantity of the CONFIRMED reservations
of the ledger and `available_stock` becomes
`physical_stock - reserved_stock`. -/
def recalculate_stock_availability (db : DB) (product_id : Nat) : Bool × DB :=
  match findStock db product_id with
  | none => (false, db)
  | some stock =>
      let reserved_total :=
        ((db.reservations.filter (fun r =>
            decide (r.productId = product_id ∧ r.status = RStatus.confirmed))).map
          (fun r => r.quantity)).sum
      let stock' := { stock with
                        reserved_stock := reserved_total
                        available_stock := stock.physical_stock - reserved_total }
      if constraintsOk stock' then
        (true, { db with stocks := replStock db.stocks stock' })
      else
        (false, db)

/-- Strategy enum `ReservationStrategy` of enhanced_stock_service.py. -/
inductive ReservationStrategy where
  | optimistic_only
  | pessimistic_only
  | hybrid
  | adaptive
deriving DecidableEq, Repr

/-- The dict built by `EnhancedStockService._analyze_stock_contention`. -/
structure ContentionInfo where
  available_stock : Int
  concurrent_reservations : Nat
  physical_stock : Int
  reserved_stock : Int
deriving DecidableEq, Repr

/-- Constant `EnhancedStockService.HIGH_CONTENTION_THRESHOLD`. -/
def HIGH_CONTENTION_THRESHOLD : Nat := 5

/-- Constant `EnhancedStockService.CRITICAL_STOCK_THRESHOLD`. -/
def CRITICAL_STOCK_THRESHOLD : Int := 10

/-- Method `EnhancedStockService._analyze_stock_contention` (uncached path):
counts the PENDING reservations of the product created within the trailing
5 minutes; on `ProductStock.DoesNotExist` it returns an all-zero sample
instead of raising. -/
def analyze_stock_contention (db : DB) (product_id : Nat) : ContentionInfo :=
  match findStock db product_id with
  | some stock =>
      { available_stock := stock.available_stock
        concurrent_reservations :=
          (db.reservations.filter (fun r =>
            decide (r.productId = product_id ∧ r.status = RStatus.pending ∧
              db.now - 5 ≤ r.created_at))).length
        physical_stock := stock.physical_stock
        reserved_stock := stock.reserved_stock }
  | none =>
      { available_stock := 0, concurrent_reservations := 0
        physical_stock := 0, reserved_stock := 0 }

/-- Method `EnhancedStockService._select_optimal_strategy`.  The whole analysis
sits in a `try`; on any exception (`Except.error`) the method falls back
to `OPTIMISTIC_ONLY`. -/
def select_optimal_strategy (analysis : Except PyExc ContentionInfo) :
    ReservationStrategy :=
  match analysis with
  | Except.error _ => ReservationStrategy.optimistic_only
  | Except.ok info =>
      if info.concurrent_reservations ≥ HIGH_CONTENTION_THRESHOLD ∧
          info.available_stock ≤ CRITICAL_STOCK_THRESHOLD then
        ReservationStrategy.pessimistic_only
      else if info.concurrent_reservations ≥ 2 then
        ReservationStrategy.hybrid
      else
        ReservationStrategy.optimistic_only

/-- Result type `OptimisticReservationResult` of optimistic_stock_service.py. -/
structure OptimisticReservationResult where
  success : Bool
  reservation : Option Nat
  error_message : String
  error_code : String
  retry_count : Nat
  conflict_detected : Bool
deriving DecidableEq, Repr

/-- One optimistic attempt, `OptimisticStockService._attempt_reservation`.

`dbRead` is the state against which step 1 (`get`, no lock) and step 3
(availability check) run; `dbWrite` is the state the step-6 conditional
UPDATE executes against.  Under READ COMMITTED, other transactions may
commit between the two statements, which is exactly the interference the
version token (`updated_at`) is meant to detect, so the two states are
separate parameters; a run without interference is `dbRead = dbWrite`.

`transaction.atomic` commits on a *normal* exit of the with-block and rolls
back only on an exception.  The `updated_rows == 0` conflict path exits
the block with a normal `return`, so the reservation INSERT of step 5 is
committed - despite the source comment claiming the rollback cancels it. -/
def attempt_reservation_optimistic (dbRead dbWrite : DB) (product_id : Nat)
    (quantity : Int) (user : User) (order_id : String)
    (duration_minutes : Option Int) (retry_count : Nat) :
    OptimisticReservationResult × DB :=
  match findStock dbRead product_id with
  | none =>
      ({ success := false, reservation := none
         error_message := "상품 재고 정보를 찾을 수 없습니다", error_code := "STOCK_NOT_FOUND"
         retry_count := retry_count, conflict_detected := false }, dbWrite)
  | some stock =>
      let current_version := stock.updated_at
      let current_available := stock.available_stock
      if current_available < quantity then
        ({ success := false, reservation := none
           error_message := "재고 부족", error_code := "INSUFFICIENT_STOCK"
           retry_count := retry_count, conflict_detected := false }, dbWrite)
      else
        let duration := durationOf duration_minutes
        let res : StockReservation :=
          { rid := dbWrite.nextRid
            productId := product_id
            quantity := quantity
            order_id := order_id
            user_id := user.uid
            status := RStatus.pending
            expires_at := dbWrite.now + duration
            confirmed_at := none
            cancelled_at := none
            cancellation_reason := ""
            created_at := dbWrite.now }
        let db1 : DB := { dbWrite with
                            reservations := dbWrite.reservations ++ [res]
                            nextRid := dbWrite.nextRid + 1 }
        match findStock db1 product_id with
        | none =>
            ({ success := false, reservation := none
               error_message := "동시 업데이트 충돌 감지", error_code := "OPTIMISTIC_LOCK_CONFLICT"
               retry_count := retry_count, conflict_detected := true }, db1)
        | some rowNow =>
            if rowNow.updated_at = current_version ∧
                quantity ≤ rowNow.available_stock then
              let stock' := { applyReserve rowNow quantity with
                                updated_at := rowNow.updated_at + 1 }
              let db2 : DB := { db1 with
                                  stocks := replStock db1.stocks stock'
                                  transactions := db1.transactions ++
                                    [mkTxLog stock' TxType.reserveTx quantity
                                      "reservation" (toString res.rid)] }
              ({ success := true, reservation := some res.rid
                 error_message := "", error_code := ""
                 retry_count := retry_count, conflict_detected := false }, db2)
            else
              ({ success := false, reservation := none
                 error_message := "동시 업데이트 충돌 감지", error_code := "OPTIMISTIC_LOCK_CONFLICT"
                 retry_count := retry_count, conflict_detected := true }, db1)

/-! ## Derived views of the state -/

/-- Physical stock of the ledger of a product (0 when no ledger exists). -/
def physOf (db : DB) (pid : Nat) : Int :=
  ((findStock db pid).map (fun s => s.physical_stock)).getD 0

/-- Available stock of the ledger of a product (0 when no ledger exists). -/
def availOf (db : DB) (pid : Nat) : Int :=
  ((findStock db pid).map (fun s => s.available_stock)).getD 0

/-- Reserved stock of the ledger of a product (0 when no ledger exists). -/
def resOf (db : DB) (pid : Nat) : Int :=
  ((findStock db pid).map (fun s => s.reserved_stock)).getD 0

/-- Status of a reservation row. -/
def statusOf (db : DB) (rid : Nat) : Option RStatus :=
  (findRes db rid).map (fun r => r.status)

/-- The ledger invariant claimed by the spec, for one stock row:
`availableStock + reservedStock == physicalStock`, `physicalStock >= 0`
and `reservedStock >= 0`. -/
abbrev rowInv (s : ProductStock) : Prop :=
  s.available_stock + s.reserved_stock = s.physical_stock ∧
    0 ≤ s.physical_stock ∧ 0 ≤ s.reserved_stock

/-- The ledger invariant, for every stock row of the state. -/
abbrev dbInv (db : DB) : Prop := ∀ s ∈ db.stocks, rowInv s

/-! ## Concrete fixtures used by the closed theorems -/

/-- A ledger with 100 physical, 0 reserved, 100 available (Scenario A). -/
def ledgerA : ProductStock :=
  { productId := 1, physical_stock := 100, reserved_stock := 0
    available_stock := 100, min_stock_level := 0, reorder_point := 0
    warehouse_code := "3077006", updated_at := 0 }

/-- A regular (non-superuser) customer. -/
def buyer : User := { uid := 10, is_superuser := false }

/-- A superuser operator. -/
def manager : User := { uid := 1, is_superuser := true }

/-- Base state: one product (id 1) with ledger `ledgerA`, nothing else. -/
def dbA : DB :=
  { products := [1], stocks := [ledgerA], reservations := []
    transactions := [], nextRid := 1, now := 0 }

/-- A PENDING reservation of quantity 10 whose `expires_at` is in the past. -/
def expiredRes : StockReservation :=
  { rid := 5, productId := 1, quantity := 10, order_id := "ORD-E"
    user_id := 10, status := RStatus.pending, expires_at := -1
    confirmed_at := none, cancelled_at := none, cancellation_reason := ""
    created_at := -31 }

/-- State with one expired PENDING reservation, for the sweeper. -/
def dbExpired : DB :=
  { products := [1], stocks := [ledgerA], reservations := [expiredRes]
    transactions := [], nextRid := 6, now := 0 }

/-- Same ledger as `ledgerA` but with a bumped version token, standing for
the committed write of a concurrent transaction between the optimistic
read and the conditional update. -/
def ledgerBumped : ProductStock := { ledgerA with updated_at := 1 }

/-- State seen by the optimistic conditional update after interference. -/
def dbBumped : DB :=
  { products := [1], stocks := [ledgerBumped], reservations := []
    transactions := [], nextRid := 1, now := 0 }

/-- A CONFIRMED (terminal) reservation of quantity 10. -/
def confirmedRes : StockReservation :=
  { rid := 7, productId := 1, quantity := 10, order_id := "ORD-C"
    user_id := 10, status := RStatus.confirmed, expires_at := 100
    confirmed_at := some 0, cancelled_at := none, cancellation_reason := ""
    created_at := 0 }

/-- State with one CONFIRMED reservation. -/
def dbConfirmed : DB :=
  { products := [1], stocks := [ledgerA], reservations := [confirmedRes]
    transactions := [], nextRid := 8, now := 1 }

/-- State with two products but a ledger only for product 1. -/
def dbTwoProducts : DB :=
  { products := [1, 2], stocks := [ledgerA], reservations := []
    transactions := [], nextRid := 1, now := 0 }

/-! ## Helper lemmas on the row stores -/

theorem find?_pid_eq {stocks : List ProductStock} {pid : Nat} {s : ProductStock}
    (h : stocks.find? (fun t => t.productId == pid) = some s) :
    s.productId = pid := by
  have hp := List.find?_some h
  simpa using hp

theorem findStock_pid_eq {db : DB} {pid : Nat} {s : ProductStock}
    (h : findStock db pid = some s) : s.productId = pid :=
  find?_pid_eq h

theorem findStock_mem {db : DB} {pid : Nat} {s : ProductStock}
    (h : findStock db pid = some s) : s ∈ db.stocks :=
  List.mem_of_find?_eq_some h

theorem findRes_rid_eq {db : DB} {rid : Nat} {r : StockReservation}
    (h : findRes db rid = some r) : r.rid = rid := by
  have hp := List.find?_some h
  simpa using hp

theorem mem_replStock {stocks : List ProductStock} {s' t : ProductStock}
    (ht : t ∈ replStock stocks s') : t = s' ∨ t ∈ stocks := by
  unfold replStock at ht
  rcases List.mem_map.1 ht with ⟨a, ha, rfl⟩
  by_cases h : a.productId = s'.productId
  · left; simp [h]
  · right; simpa [h] using ha

theorem find?_replStock {stocks : List ProductStock} {pid : Nat}
    (s' : ProductStock) (hpid : s'.productId = pid)
    (h : (stocks.find? (fun t => t.productId == pid)).isSome = true) :
    (replStock stocks s').find? (fun t => t.productId == pid) = some s' := by
  induction stocks with
  | nil => simp [List.find?] at h
  | cons a as ih =>
      unfold replStock
      rw [List.map_cons]
      by_cases ha : a.productId = pid
      · have hrepl : (if a.productId = s'.productId then s' else a) = s' := by
          rw [if_pos (by rw [hpid]; exact ha)]
        rw [hrepl]
        exact List.find?_cons_of_pos _ (by simp [hpid])
      · have hrepl : (if a.productId = s'.productId then s' else a) = a := by
          rw [if_neg (fun hc => ha (hc.trans hpid))]
        rw [hrepl]
        rw [List.find?_cons_of_neg _ (by simp [ha])]
        apply ih
        rwa [List.find?_cons_of_neg _ (by simp [ha])] at h

theorem find?_append_of_none {α : Type} {l₁ l₂ : List α} {p : α → Bool}
    (h : l₁.find? p = none) : (l₁ ++ l₂).find? p = l₂.find? p := by
  induction l₁ with
  | nil => simp
  | cons a as ih =>
      by_cases hpa : p a
      · rw [List.find?_cons_of_pos _ hpa] at h
        exact absurd h (by simp)
      · rw [List.find?_cons_of_neg _ (by simpa using hpa)] at h
        rw [List.cons_append, List.find?_cons_of_neg _ (by simpa using hpa)]
        exact ih h

theorem rowInv_replStock {stocks : List ProductStock} {s' : ProductStock}
    (h : ∀ s ∈ stocks, rowInv s) (h' : rowInv s') :
    ∀ t ∈ replStock stocks s', rowInv t := by
  intro t ht
  rcases mem_replStock ht with rfl | hmem
  · exact h'
  · exact h t hmem

/-- The sweep never changes the state: with no expired PENDING
reservation it only returns 0, and otherwise the first loop iteration
raises `TypeError` (the call omits the required `user` argument) and
`@transaction.atomic` rolls the sweep back. -/
theorem sweep_state_unchanged (db : DB) :
    (clean_expired_reservations db).2 = db := by
  unfold clean_expired_reservations
  dsimp only
  split <;> rfl

theorem reserve_preserves_inv (db : DB) (pid : Nat) (q : Int) (u : User)
    (oid : String) (dur : Option Int) (hinv : dbInv db) :
    dbInv (reserve_stock db pid q u oid dur).2 := by
  unfold reserve_stock
  dsimp only
  by_cases hq : q ≤ 0
  · rw [if_pos hq]; exact hinv
  rw [if_neg hq]
  cases hfs : findStock db pid with
  | none => exact hinv
  | some stock =>
      dsimp only
      by_cases hcon : constraintsOk (applyReserve stock q)
      · by_cases hav : stock.available_stock < q
        · rw [if_pos hav]; exact hinv
        rw [if_neg hav, if_pos hcon]
        have hrow := hinv stock (findStock_mem hfs)
        show ∀ t ∈ replStock db.stocks (applyReserve stock q), rowInv t
        refine rowInv_replStock hinv ⟨?_, hcon.1, hcon.2⟩
        simp only [applyReserve] at *
        omega
      · by_cases hav : stock.available_stock < q
        · rw [if_pos hav]; exact hinv
        rw [if_neg hav, if_neg hcon]
        exact hinv

theorem cancel_preserves_inv (db : DB) (rid : Nat) (u : User)
    (reason : String) (force : Bool) (hinv : dbInv db) :
    dbInv (cancel_reservation db rid u reason force).2 := by
  unfold cancel_reservation
  dsimp only
  cases hr : findRes db rid with
  | none => exact hinv
  | some r =>
      dsimp only
      by_cases h1 : r.status = RStatus.cancelled
      · rw [if_pos h1]; exact hinv
      rw [if_neg h1]
      by_cases h2 : force ∧ !u.is_superuser
      · rw [if_pos h2]; exact hinv
      rw [if_neg h2]
      by_cases h3 : ¬(u.is_superuser ∨ r.user_id = u.uid)
      · rw [if_pos h3]; exact hinv
      rw [if_neg h3]
      by_cases h4 : ¬force ∧ r.status ≠ RStatus.pending
      · rw [if_pos h4]; exact hinv
      rw [if_neg h4]
      cases hfs : findStock db r.productId with
      | none => exact hinv
      | some stock =>
          dsimp only
          set stock' := if r.confirmed_at = none then applyRelease stock r.quantity else stock with hstock'
          by_cases hcon : constraintsOk stock'
          · rw [if_pos hcon]
            have hrow := hinv stock (findStock_mem hfs)
            show ∀ t ∈ replStock db.stocks stock', rowInv t
            refine rowInv_replStock hinv ⟨?_, hcon.1, hcon.2⟩
            rw [hstock']
            by_cases hcf : r.confirmed_at = none
            · rw [if_pos hcf]
              simp only [applyRelease]
              omega
            · rw [if_neg hcf]
              exact hrow.1
          · rw [if_neg hcon]
            exact hinv

theorem inbound_preserves_inv (db : DB) (pid : Nat) (q : Int)
    (wh : Option String) (u : User) (hinv : dbInv db) :
    dbInv (inbound_stock db pid q wh u).2 := by
  unfold inbound_stock
  dsimp only
  by_cases hsu : !u.is_superuser
  · rw [if_pos hsu]; exact hinv
  rw [if_neg hsu]
  by_cases hp : ¬(pid ∈ db.products)
  · rw [if_pos hp]; exact hinv
  rw [if_neg hp]
  cases hfs : findStock db pid with
  | none =>
      dsimp only
      by_cases hcon : constraintsOk (applyInbound (defaultStockRow pid) q)
      · rw [if_pos hcon]
        have hbase : ∀ s ∈ db.stocks ++ [defaultStockRow pid], rowInv s := by
          intro s hs
          rcases List.mem_append.1 hs with hs0 | hs1
          · exact hinv s hs0
          · rcases List.mem_singleton.1 hs1 with rfl
            refine ⟨?_, ?_, ?_⟩ <;> simp [defaultStockRow]
        show ∀ t ∈ replStock (db.stocks ++ [_]) _, rowInv t
        refine rowInv_replStock hbase ⟨?_, hcon.1, hcon.2⟩
        simp only [applyInbound, defaultStockRow]
        omega
      · rw [if_neg hcon]
        exact hinv
  | some stock =>
      dsimp only
      by_cases hcon : constraintsOk (applyInbound stock q)
      · rw [if_pos hcon]
        have hrow := hinv stock (findStock_mem hfs)
        show ∀ t ∈ replStock db.stocks (applyInbound stock q), rowInv t
        refine rowInv_replStock hinv ⟨?_, hcon.1, hcon.2⟩
        simp only [applyInbound] at *
        omega
      · rw [if_neg hcon]
        exact hinv

theorem recalculate_preserves_inv (db : DB) (pid : Nat) (hinv : dbInv db) :
    dbInv (recalculate_stock_availability db pid).2 := by
  unfold recalculate_stock_availability
  dsimp only
  cases hfs : findStock db pid with
  | none => exact hinv
  | some stock =>
      dsimp only
      set total := ((db.reservations.filter (fun r =>
        decide (r.productId = pid ∧ r.status = RStatus.confirmed))).map
          (fun r => r.quantity)).sum with htotal
      by_cases hcon : constraintsOk { stock with
          reserved_stock := total
          available_stock := stock.physical_stock - total }
      · rw [if_pos hcon]
        show ∀ t ∈ replStock db.stocks _, rowInv t
        refine rowInv_replStock hinv ⟨?_, hcon.1, hcon.2⟩
        dsimp only
        omega
      · rw [if_neg hcon]
        exact hinv

/-- Decidable equality for `Except`, so closed runs can be checked by
`decide`. -/
instance instDecEqExcept {α β : Type} [DecidableEq α] [DecidableEq β] :
    DecidableEq (Except α β) := fun a b =>
  match a, b with
  | Except.ok x, Except.ok y => decidable_of_iff (x = y) (by simp)
  | Except.error x, Except.error y => decidable_of_iff (x = y) (by simp)
  | Except.ok _, Except.error _ => Decidable.isFalse (by simp)
  | Except.error _, Except.ok _ => Decidable.isFalse (by simp)

/-! ## Claim theorems -/

/-- Claim C6 (code bug): `checkAvailability` is supposed to return a
structured `StockCheckResult` (comparing against available stock, or
physical stock when `includeReserved`, and a STOCK_NOT_FOUND-style result
when no ledger exists) with no exception crossing the boundary.  The
implementation filters on the misspelt kwarg `product___id`, whose path
`["product", "_id"]` names no `Product` field, so every call - ledger
present or not, either value of `include_reserved` - raises `FieldError`
out of the method (only `ProductStock.DoesNotExist` is caught). -/
theorem c6_check_availability_always_raises :
    lookupParts checkAvailabilityKwarg = ["product", "_id"] ∧
    validStockProductLookup checkAvailabilityKwarg = false ∧
    check_availablity dbA 1 30 false = Except.error PyExc.fieldError ∧
    check_availablity dbA 1 30 true = Except.error PyExc.fieldError ∧
    check_availablity dbTwoProducts 2 30 false = Except.error PyExc.fieldError := by
  decide

/-- Claim C4 (code bug): the sweep is supposed to cancel every expired
PENDING reservation and survive individual failures.  The loop body calls
`cancel_reservation(reservation.id, reason=..., force=True)` without the
required positional argument `user`, so the first iteration raises
`TypeError`; the exception aborts the whole sweep and
`@transaction.atomic` rolls it back, leaving the expired reservation
PENDING.  Only a state with no expired reservation returns (count 0). -/
theorem c4_sweep_crashes_on_first_expired :
    statusOf dbExpired 5 = some RStatus.pending ∧
    expiredRes.expires_at < dbExpired.now ∧
    (clean_expired_reservations dbExpired).1 = Except.error PyExc.typeError ∧
    (clean_expired_reservations dbExpired).2 = dbExpired ∧
    statusOf (clean_expired_reservations dbExpired).2 5 = some RStatus.pending ∧
    (clean_expired_reservations dbA).1 = Except.ok 0 := by
  decide

/-- Claim C2 (code bug): a conflicted reservation attempt is supposed to
roll back entirely, so that the created StockReservation row is never
visible.  In the optimistic attempt the `updated_rows == 0` conflict path
leaves the `transaction.atomic` block with a normal `return`, which
commits: starting from `dbA` (version 0 read) with the conditional update
running against `dbBumped` (version 1, a concurrent commit), the attempt
reports OPTIMISTIC_LOCK_CONFLICT, leaves the ledger untouched, and yet the
PENDING reservation row it created is committed and visible afterwards. -/
theorem c2_conflict_commits_orphan_reservation :
    (attempt_reservation_optimistic dbA dbBumped 1 30 buyer "" none 0).1.success = false ∧
    (attempt_reservation_optimistic dbA dbBumped 1 30 buyer "" none 0).1.error_code =
      "OPTIMISTIC_LOCK_CONFLICT" ∧
    (attempt_reservation_optimistic dbA dbBumped 1 30 buyer "" none 0).1.conflict_detected = true ∧
    findStock (attempt_reservation_optimistic dbA dbBumped 1 30 buyer "" none 0).2 1 =
      some ledgerBumped ∧
    (attempt_reservation_optimistic dbA dbBumped 1 30 buyer "" none 0).2.reservations =
      [{ rid := 1, productId := 1, quantity := 30, order_id := "", user_id := 10
         status := RStatus.pending, expires_at := 30, confirmed_at := none
         cancelled_at := none, cancellation_reason := "", created_at := 0 }] := by
  decide

/-- Claim C3 (code bug): from ledger (physical 100, reserved 0,
available 100), reserving 30 does yield (100, 30, 70), but the claimed
confirm outcome (100, 0, 70) - reserved back to 0, available unchanged,
as the repository integration test also asserts - does not hold:
`confirm_reservation` decrements `available_stock` a second time on top of
the decrement already applied at reservation, yielding (100, 0, 40). -/
theorem c3_scenario_a_confirm_double_decrements :
    ((reserve_stock dbA 1 30 buyer "ORD-A" none).1).success = true ∧
    physOf (reserve_stock dbA 1 30 buyer "ORD-A" none).2 1 = 100 ∧
    resOf (reserve_stock dbA 1 30 buyer "ORD-A" none).2 1 = 30 ∧
    availOf (reserve_stock dbA 1 30 buyer "ORD-A" none).2 1 = 70 ∧
    ((confirm_reservation (reserve_stock dbA 1 30 buyer "ORD-A" none).2 1 manager).1).1 = true ∧
    physOf (confirm_reservation (reserve_stock dbA 1 30 buyer "ORD-A" none).2 1 manager).2 1 = 100 ∧
    resOf (confirm_reservation (reserve_stock dbA 1 30 buyer "ORD-A" none).2 1 manager).2 1 = 0 ∧
    availOf (confirm_reservation (reserve_stock dbA 1 30 buyer "ORD-A" none).2 1 manager).2 1 = 40 := by
  decide

/-- Claim C1, counterexample: after the committed mutations of Scenario A
(successful reserve of 30 then successful confirm), the post-state of the
ledger violates `availableStock + reservedStock == physicalStock`
(40 + 0 vs 100), refuting the claim that every committed mutation of the
exposed operations preserves it. -/
theorem c1_invariant_counterexample :
    ((confirm_reservation (reserve_stock dbA 1 30 buyer "ORD-B" none).2 1 manager).1).1 = true ∧
    availOf (confirm_reservation (reserve_stock dbA 1 30 buyer "ORD-B" none).2 1 manager).2 1 +
        resOf (confirm_reservation (reserve_stock dbA 1 30 buyer "ORD-B" none).2 1 manager).2 1 ≠
      physOf (confirm_reservation (reserve_stock dbA 1 30 buyer "ORD-B" none).2 1 manager).2 1 := by
  decide

/-- Claim C7, counterexample: CONFIRMED is a terminal status, yet a forced
cancel by a superuser succeeds on a CONFIRMED reservation and moves its
status to CANCELLED - an operation that transitions out of a terminal
state, refuting the claim. -/
theorem c7_terminal_counterexample :
    statusOf dbConfirmed 7 = some RStatus.confirmed ∧
    ((cancel_reservation dbConfirmed 7 manager "operator cancel" true).1).1 = true ∧
    statusOf (cancel_reservation dbConfirmed 7 manager "operator cancel" true).2 7 =
      some RStatus.cancelled := by
  decide

/-- Claim C9, counterexample: `inbound_stock` performs no `quantity > 0`
validation: an inbound of -5 on a ledger with 100 physical succeeds and
silently decrements physical and available stock to 95, refuting the
claim that inbound requires a positive quantity. -/
theorem c9_quantity_counterexample :
    ((inbound_stock dbA 1 (-5) none manager).1).1 = true ∧
    physOf (inbound_stock dbA 1 (-5) none manager).2 1 = 95 ∧
    availOf (inbound_stock dbA 1 (-5) none manager).2 1 = 95 := by
  decide

/-- Claim C10, counterexample: inbound for a product without a ledger does
create the ledger and apply the quantity, but a caller-supplied warehouse
code is not persisted: the created row keeps the model default "3077006"
even though "W1" was passed (`stock.warehouse_code = ...` is assigned in
memory only, and the save is restricted to
`update_fields=["physical_stock", "available_stock"]`). -/
theorem c10_warehouse_counterexample :
    findStock dbTwoProducts 2 = none ∧
    ((inbound_stock dbTwoProducts 2 40 (some "W1") manager).1).1 = true ∧
    ((findStock (inbound_stock dbTwoProducts 2 40 (some "W1") manager).2 2).map
      (fun s => s.warehouse_code)) = some "3077006" ∧
    ¬((findStock (inbound_stock dbTwoProducts 2 40 (some "W1") manager).2 2).map
      (fun s => s.warehouse_code)) = some "W1" := by
  decide

/-- Claim C5 (confirmed): for every contention sample, the strategy
selector returns PESSIMISTIC exactly when the sampled
concurrentReservationCount is at least 5 (HIGH_CONTENTION_THRESHOLD) and
availableStock is at most 10 (CRITICAL_STOCK_THRESHOLD); otherwise HYBRID
exactly when concurrentReservationCount is at least 2; otherwise
OPTIMISTIC; and on any failure of the contention analysis (an exception
reaching the try/except) it returns OPTIMISTIC. -/
theorem c5_strategy_selection (info : ContentionInfo) (e : PyExc) :
    (select_optimal_strategy (Except.ok info) = ReservationStrategy.pessimistic_only ↔
      5 ≤ info.concurrent_reservations ∧ info.available_stock ≤ 10) ∧
    (select_optimal_strategy (Except.ok info) = ReservationStrategy.hybrid ↔
      ¬(5 ≤ info.concurrent_reservations ∧ info.available_stock ≤ 10) ∧
        2 ≤ info.concurrent_reservations) ∧
    (select_optimal_strategy (Except.ok info) = ReservationStrategy.optimistic_only ↔
      ¬(5 ≤ info.concurrent_reservations ∧ info.available_stock ≤ 10) ∧
        ¬2 ≤ info.concurrent_reservations) ∧
    select_optimal_strategy (Except.error e) = ReservationStrategy.optimistic_only := by
  refine ⟨?_, ?_, ?_, rfl⟩ <;>
    · simp only [select_optimal_strategy, HIGH_CONTENTION_THRESHOLD,
        CRITICAL_STOCK_THRESHOLD, ge_iff_le]
      split_ifs with h1 h2 <;> simp_all

/-- Shape of a successful confirm: the ledger row of the reservation is
replaced by `applyConfirm` (reserved and available both decremented, the
physical count untouched). -/
theorem confirm_success_shape (db : DB) (rid : Nat) (u : User)
    (r : StockReservation) (s : ProductStock)
    (hr : findRes db rid = some r) (hs : findStock db r.productId = some s)
    (hsucc : ((confirm_reservation db rid u).1).1 = true) :
    findStock (confirm_reservation db rid u).2 r.productId =
      some (applyConfirm s r.quantity) := by
  unfold confirm_reservation at hsucc ⊢
  dsimp only at hsucc ⊢
  by_cases hsu : !u.is_superuser
  · rw [if_pos hsu] at hsucc; simp at hsucc
  rw [if_neg hsu] at hsucc ⊢
  rw [hr] at hsucc ⊢
  dsimp only at hsucc ⊢
  by_cases h1 : r.status ≠ RStatus.pending
  · rw [if_pos h1] at hsucc; simp at hsucc
  rw [if_neg h1] at hsucc ⊢
  by_cases h2 : r.expires_at < db.now
  · rw [if_pos h2] at hsucc; simp at hsucc
  rw [if_neg h2] at hsucc ⊢
  rw [hs] at hsucc ⊢
  dsimp only at hsucc ⊢
  by_cases hcon : constraintsOk (applyConfirm s r.quantity)
  · rw [if_pos hcon]
    show (replStock db.stocks (applyConfirm s r.quantity)).find?
        (fun t => t.productId == r.productId) = some (applyConfirm s r.quantity)
    apply find?_replStock
    · have hpid := findStock_pid_eq hs
      simpa [applyConfirm] using hpid
    · unfold findStock at hs
      rw [hs]
      rfl
  · rw [if_neg hcon] at hsucc
    simp at hsucc

/-- A committed confirm still satisfies the database check constraints
(they are enforced at commit), even though it breaks the sum invariant. -/
theorem confirm_preserves_nonneg (db : DB) (rid : Nat) (u : User)
    (hinv : dbInv db) :
    ∀ t ∈ (confirm_reservation db rid u).2.stocks,
      0 ≤ t.physical_stock ∧ 0 ≤ t.reserved_stock := by
  have hbase : ∀ t ∈ db.stocks, 0 ≤ t.physical_stock ∧ 0 ≤ t.reserved_stock :=
    fun t ht => ⟨(hinv t ht).2.1, (hinv t ht).2.2⟩
  unfold confirm_reservation
  dsimp only
  by_cases hsu : !u.is_superuser
  · rw [if_pos hsu]; exact hbase
  rw [if_neg hsu]
  cases hr : findRes db rid with
  | none => exact hbase
  | some r =>
      dsimp only
      by_cases h1 : r.status ≠ RStatus.pending
      · rw [if_pos h1]; exact hbase
      rw [if_neg h1]
      by_cases h2 : r.expires_at < db.now
      · rw [if_pos h2]; exact hbase
      rw [if_neg h2]
      cases hs : findStock db r.productId with
      | none => exact hbase
      | some stock =>
          dsimp only
          by_cases hcon : constraintsOk (applyConfirm stock r.quantity)
          · rw [if_pos hcon]
            intro t ht
            rcases mem_replStock ht with rfl | hmem
            · exact ⟨hcon.1, hcon.2⟩
            · exact hbase t hmem
          · rw [if_neg hcon]; exact hbase

/-- Claim C1 (corrected): the invariant
`availableStock + reservedStock == physicalStock` together with
non-negativity is preserved by every committed mutation of reserve,
cancel, inbound, reconcile and sweepExpired; but confirm does NOT preserve
the sum: a successful confirm keeps `physicalStock` (and the
non-negativity constraints), while `availableStock + reservedStock` drops
to `physicalStock - 2 * quantity`, because `confirm_reservation`
decrements `available_stock` in addition to `reserved_stock` without
touching `physical_stock`. -/
theorem c1_invariant_amended (db : DB) (pid rid : Nat) (q : Int) (u : User)
    (oid reason : String) (dur : Option Int) (wh : Option String)
    (force : Bool) (hinv : dbInv db) :
    dbInv (reserve_stock db pid q u oid dur).2 ∧
    dbInv (cancel_reservation db rid u reason force).2 ∧
    dbInv (inbound_stock db pid q wh u).2 ∧
    dbInv (recalculate_stock_availability db pid).2 ∧
    dbInv (clean_expired_reservations db).2 ∧
    (∀ t ∈ (confirm_reservation db rid u).2.stocks,
      0 ≤ t.physical_stock ∧ 0 ≤ t.reserved_stock) ∧
    (∀ r s, findRes db rid = some r → findStock db r.productId = some s →
      ((confirm_reservation db rid u).1).1 = true →
      physOf (confirm_reservation db rid u).2 r.productId = s.physical_stock ∧
      availOf (confirm_reservation db rid u).2 r.productId +
          resOf (confirm_reservation db rid u).2 r.productId =
        s.physical_stock - 2 * r.quantity) := by
  refine ⟨reserve_preserves_inv db pid q u oid dur hinv,
    cancel_preserves_inv db rid u reason force hinv,
    inbound_preserves_inv db pid q wh u hinv,
    recalculate_preserves_inv db pid hinv,
    by rw [sweep_state_unchanged db]; exact hinv,
    confirm_preserves_nonneg db rid u hinv, ?_⟩
  intro r s hr hs hsucc
  have hshape := confirm_success_shape db rid u r s hr hs hsucc
  have hsum := (hinv s (findStock_mem hs)).1
  constructor
  · unfold physOf
    rw [hshape]
    simp [applyConfirm]
  · unfold availOf resOf
    rw [hshape]
    simp only [Option.map_some', Option.getD_some, applyConfirm]
    omega

/-- Witness for `c1_invariant_amended` at the concrete base state. -/
theorem c1_invariant_amended_witness :
    dbInv dbA ∧
    (dbInv (reserve_stock dbA 1 30 buyer "ORD-W" none).2 ∧
      dbInv (cancel_reservation dbA 5 buyer "w" false).2) :=
  ⟨by decide,
    (c1_invariant_amended dbA 1 5 30 buyer "ORD-W" "w" none none false (by decide)).1,
    (c1_invariant_amended dbA 1 5 30 buyer "ORD-W" "w" none none false (by decide)).2.1⟩

theorem confirm_unchanged_of_not_pending {db : DB} {rid : Nat} {uc : User}
    {r : StockReservation} (hr : findRes db rid = some r)
    (hpend : r.status ≠ RStatus.pending) :
    (confirm_reservation db rid uc).2 = db := by
  unfold confirm_reservation
  dsimp only
  by_cases hsu : !uc.is_superuser
  · rw [if_pos hsu]
  · rw [if_neg hsu, hr]
    dsimp only
    rw [if_pos hpend]

theorem cancel_unchanged_of_cancelled {db : DB} {rid : Nat} {u : User}
    {reason : String} {force : Bool} {r : StockReservation}
    (hr : findRes db rid = some r) (hc : r.status = RStatus.cancelled) :
    (cancel_reservation db rid u reason force).2 = db := by
  unfold cancel_reservation
  rw [hr]
  dsimp only
  rw [if_pos hc]

theorem cancel_unchanged_of_not_pending {db : DB} {rid : Nat} {u : User}
    {reason : String} {force : Bool} {r : StockReservation}
    (hr : findRes db rid = some r) (hpend : r.status ≠ RStatus.pending)
    (hnf : ¬(force = true ∧ u.is_superuser = true)) :
    (cancel_reservation db rid u reason force).2 = db := by
  unfold cancel_reservation
  rw [hr]
  dsimp only
  by_cases hc : r.status = RStatus.cancelled
  · rw [if_pos hc]
  rw [if_neg hc]
  cases hf : force with
  | true =>
      have hsu : u.is_superuser = false := by
        cases hsu : u.is_superuser with
        | true => exact absurd ⟨rfl, hsu⟩ (hf ▸ hnf)
        | false => rfl
      rw [if_pos (by simp [hsu])]
  | false =>
      rw [if_neg (by simp)]
      by_cases hperm : ¬(u.is_superuser ∨ r.user_id = u.uid)
      · rw [if_pos hperm]
      · rw [if_neg hperm]
        rw [if_pos (by simp [hpend])]

/-- Claim C7 (corrected): CANCELLED is genuinely terminal (cancel refuses
an already-cancelled reservation, confirm refuses any non-PENDING one,
and the sweeper never changes the state), and confirm as well as
non-forced cancel leave every non-PENDING reservation - in particular a
CONFIRMED or EXPIRED one - untouched; but a forced cancel by a superuser
can move a reservation out of CONFIRMED (or EXPIRED) into CANCELLED, so
CONFIRMED and EXPIRED are terminal only for non-forced operations. -/
theorem c7_terminal_amended (db : DB) (rid : Nat) (u uc : User)
    (reason : String) (force : Bool) (st : RStatus)
    (hst : statusOf db rid = some st) :
    (st = RStatus.cancelled →
      (cancel_reservation db rid u reason force).2 = db ∧
      (confirm_reservation db rid uc).2 = db) ∧
    (st ≠ RStatus.pending → (confirm_reservation db rid uc).2 = db) ∧
    (st ≠ RStatus.pending → ¬(force = true ∧ u.is_superuser = true) →
      (cancel_reservation db rid u reason force).2 = db) ∧
    (clean_expired_reservations db).2 = db := by
  obtain ⟨r, hr, hrs⟩ : ∃ r, findRes db rid = some r ∧ r.status = st := by
    unfold statusOf at hst
    cases hfind : findRes db rid with
    | none => rw [hfind] at hst; simp at hst
    | some r =>
        rw [hfind] at hst
        simp only [Option.map_some', Option.some.injEq] at hst
        exact ⟨r, rfl, hst⟩
  refine ⟨?_, ?_, ?_, sweep_state_unchanged db⟩
  · intro hc
    have hc' : r.status = RStatus.cancelled := by rw [hrs, hc]
    have hpend : r.status ≠ RStatus.pending := by rw [hc']; simp
    exact ⟨cancel_unchanged_of_cancelled hr hc',
      confirm_unchanged_of_not_pending hr hpend⟩
  · intro hp
    exact confirm_unchanged_of_not_pending hr (by rw [hrs]; exact hp)
  · intro hp hnf
    exact cancel_unchanged_of_not_pending hr (by rw [hrs]; exact hp) hnf

/-- Witness for `c7_terminal_amended` at the concrete state with a
CONFIRMED reservation. -/
theorem c7_terminal_amended_witness :
    statusOf dbConfirmed 7 = some RStatus.confirmed ∧
    (confirm_reservation dbConfirmed 7 manager).2 = dbConfirmed ∧
    (cancel_reservation dbConfirmed 7 buyer "w" false).2 = dbConfirmed :=
  ⟨by decide,
    (c7_terminal_amended dbConfirmed 7 buyer manager "w" false
        RStatus.confirmed (by decide)).2.1 (by decide),
    (c7_terminal_amended dbConfirmed 7 buyer manager "w" false
        RStatus.confirmed (by decide)).2.2.1 (by decide) (by decide)⟩

/-- Full shape of a successful `reserve_stock` run. -/
theorem reserve_stock_success_eq (db : DB) (pid : Nat) (q : Int) (u : User)
    (oid : String) (dur : Option Int) (s : ProductStock)
    (hfs : findStock db pid = some s) (hq : ¬q ≤ 0)
    (hav : ¬s.available_stock < q) (hcon : constraintsOk (applyReserve s q)) :
    reserve_stock db pid q u oid dur =
      ({ success := true, reservation := some db.nextRid
         error_message := "", error_code := "" },
       { products := db.products
         stocks := replStock db.stocks (applyReserve s q)
         reservations := db.reservations ++
           [{ rid := db.nextRid, productId := pid, quantity := q, order_id := oid
              user_id := u.uid, status := RStatus.pending
              expires_at := db.now + durationOf dur, confirmed_at := none
              cancelled_at := none, cancellation_reason := "", created_at := db.now }]
         transactions := db.transactions ++
           [mkTxLog (applyReserve s q) TxType.reserveTx q "reservation"
             (toString db.nextRid)]
         nextRid := db.nextRid + 1
         now := db.now }) := by
  unfold reserve_stock
  dsimp only
  rw [if_neg hq, hfs]
  dsimp only
  rw [if_neg hav, if_pos hcon]

/-- Claim C8 (confirmed): for every ledger and quantity q with
0 < q <= availableStock, a successful reserve of q followed by a
successful cancel of the created reservation (by its owner, non-forced)
restores availableStock and reservedStock exactly to their values before
the reserve.  The non-negativity hypotheses restate the database check
constraints on the pre-state row, and the freshness hypothesis restates
primary-key uniqueness of the new reservation id. -/
theorem c8_reserve_cancel_roundtrip (db : DB) (pid : Nat) (q : Int) (u : User)
    (oid reason : String) (dur : Option Int) (s : ProductStock)
    (hfs : findStock db pid = some s)
    (hphys : 0 ≤ s.physical_stock) (hres : 0 ≤ s.reserved_stock)
    (hq : 0 < q) (hav : q ≤ s.available_stock)
    (hfresh : ∀ r ∈ db.reservations, r.rid ≠ db.nextRid) :
    ((reserve_stock db pid q u oid dur).1).success = true ∧
    availOf (reserve_stock db pid q u oid dur).2 pid = s.available_stock - q ∧
    resOf (reserve_stock db pid q u oid dur).2 pid = s.reserved_stock + q ∧
    ((cancel_reservation (reserve_stock db pid q u oid dur).2
        db.nextRid u reason false).1).1 = true ∧
    availOf (cancel_reservation (reserve_stock db pid q u oid dur).2
        db.nextRid u reason false).2 pid = s.available_stock ∧
    resOf (cancel_reservation (reserve_stock db pid q u oid dur).2
        db.nextRid u reason false).2 pid = s.reserved_stock := by
  have hq' : ¬q ≤ 0 := by omega
  have hav' : ¬s.available_stock < q := by omega
  have hpid := findStock_pid_eq hfs
  have hcon1 : constraintsOk (applyReserve s q) := by
    refine ⟨by simpa [applyReserve] using hphys, ?_⟩
    simp only [applyReserve]
    omega
  rw [reserve_stock_success_eq db pid q u oid dur s hfs hq' hav' hcon1]
  dsimp only
  set s1 : ProductStock := applyReserve s q with hs1def
  set resRow : StockReservation :=
    { rid := db.nextRid, productId := pid, quantity := q, order_id := oid
      user_id := u.uid, status := RStatus.pending
      expires_at := db.now + durationOf dur, confirmed_at := none
      cancelled_at := none, cancellation_reason := ""
      created_at := db.now } with hrowdef
  have hsome : (db.stocks.find? (fun t => t.productId == pid)).isSome = true := by
    unfold findStock at hfs
    rw [hfs]
    rfl
  have hfind1 : (replStock db.stocks s1).find?
      (fun t => t.productId == pid) = some s1 := by
    rw [hs1def]
    exact find?_replStock _ (by simpa [applyReserve] using hpid) hsome
  have hres1 : (db.reservations ++ [resRow]).find?
      (fun t => t.rid == db.nextRid) = some resRow := by
    rw [find?_append_of_none]
    · exact List.find?_cons_of_pos _ (by rw [hrowdef]; simp)
    · exact List.find?_eq_none.2 (fun r hrm => by simpa using hfresh r hrm)
  constructor
  · rfl
  constructor
  · unfold availOf findStock
    dsimp only
    rw [hfind1, hs1def]
    simp [applyReserve]
  constructor
  · unfold resOf findStock
    dsimp only
    rw [hfind1, hs1def]
    simp [applyReserve]
  unfold cancel_reservation findRes
  dsimp only
  rw [hres1]
  dsimp only
  rw [if_neg (by simp), if_neg (by simp), if_neg (by simp),
    if_neg (by simp)]
  unfold findStock
  dsimp only
  rw [hfind1]
  dsimp only
  rw [if_pos rfl]
  have hcon2 : constraintsOk (applyRelease s1 q) := by
    rw [hs1def]
    refine ⟨by simpa [applyRelease, applyReserve] using hphys, ?_⟩
    simp only [applyRelease, applyReserve]
    omega
  rw [if_pos hcon2]
  have hfind2 : (replStock (replStock db.stocks s1)
      (applyRelease s1 q)).find?
      (fun t => t.productId == pid) = some (applyRelease s1 q) := by
    apply find?_replStock
    · rw [hs1def]
      simpa [applyRelease, applyReserve] using hpid
    · rw [hfind1]
      rfl
  refine ⟨rfl, ?_, ?_⟩
  · unfold availOf findStock
    dsimp only
    rw [hfind2, hs1def]
    simp only [Option.map_some', Option.getD_some, applyRelease, applyReserve]
    omega
  · unfold resOf findStock
    dsimp only
    rw [hfind2, hs1def]
    simp only [Option.map_some', Option.getD_some, applyRelease, applyReserve]
    omega

/-- Witness for `c8_reserve_cancel_roundtrip` on the concrete base state:
reserve 30 of 100 then cancel restores 100 available, 0 reserved. -/
theorem c8_reserve_cancel_roundtrip_witness :
    findStock dbA 1 = some ledgerA ∧
    availOf (cancel_reservation (reserve_stock dbA 1 30 buyer "ORD-R" none).2
        dbA.nextRid buyer "changed mind" false).2 1 = ledgerA.available_stock :=
  ⟨by decide,
    (c8_reserve_cancel_roundtrip dbA 1 30 buyer "ORD-R" "changed mind" none
      ledgerA (by decide) (by decide) (by decide) (by decide) (by decide)
      (by decide)).2.2.2.2.1⟩

theorem getLast?_append_singleton {α : Type} (l : List α) (a : α) :
    (l ++ [a]).getLast? = some a := by
  induction l with
  | nil => rfl
  | cons b bs ih =>
      rw [List.cons_append, List.getLast?_cons, ih]
      rfl

/-- Claim C9 (corrected): `inbound_stock` performs no validation of
`quantity` (a non-positive quantity is applied as-is, subject only to the
database non-negativity constraints); every successful call increments
both physicalStock and availableStock of the ledger of the product by
exactly `quantity`, leaves reservedStock unchanged, and appends exactly
one INBOUND transaction log entry carrying that quantity. -/
theorem c9_inbound_amended (db : DB) (pid : Nat) (q : Int)
    (wh : Option String) (u : User)
    (hsucc : ((inbound_stock db pid q wh u).1).1 = true) :
    physOf (inbound_stock db pid q wh u).2 pid = physOf db pid + q ∧
    availOf (inbound_stock db pid q wh u).2 pid = availOf db pid + q ∧
    resOf (inbound_stock db pid q wh u).2 pid = resOf db pid ∧
    ((inbound_stock db pid q wh u).2).transactions.length =
      db.transactions.length + 1 ∧
    (((inbound_stock db pid q wh u).2).transactions.getLast?).map
      (fun t => (t.transaction_type, t.quantity)) = some (TxType.inbound, q) := by
  unfold inbound_stock at hsucc ⊢
  dsimp only at hsucc ⊢
  by_cases hsu : !u.is_superuser
  · rw [if_pos hsu] at hsucc; simp at hsucc
  rw [if_neg hsu] at hsucc ⊢
  by_cases hp : ¬pid ∈ db.products
  · rw [if_pos hp] at hsucc; simp at hsucc
  rw [if_neg hp] at hsucc ⊢
  cases hfs : findStock db pid with
  | some stock =>
      rw [hfs] at hsucc
      dsimp only at hsucc ⊢
      have hfs' : db.stocks.find? (fun t => t.productId == pid) = some stock := hfs
      by_cases hcon : constraintsOk (applyInbound stock q)
      · rw [if_pos hcon]
        have hpid := findStock_pid_eq hfs
        have hsome : (db.stocks.find? (fun t => t.productId == pid)).isSome = true := by
          rw [hfs']
          rfl
        have hfind' : (replStock db.stocks (applyInbound stock q)).find?
            (fun t => t.productId == pid) = some (applyInbound stock q) :=
          find?_replStock _ (by simpa [applyInbound] using hpid) hsome
        refine ⟨?_, ?_, ?_, by simp, ?_⟩
        · unfold physOf findStock
          dsimp only
          rw [hfind', hfs']
          simp [applyInbound]
        · unfold availOf findStock
          dsimp only
          rw [hfind', hfs']
          simp [applyInbound]
        · unfold resOf findStock
          dsimp only
          rw [hfind', hfs']
          simp [applyInbound]
        · dsimp only
          rw [getLast?_append_singleton]
          simp [mkTxLog]
      · rw [if_neg hcon] at hsucc
        simp at hsucc
  | none =>
      rw [hfs] at hsucc
      dsimp only at hsucc ⊢
      have hnone : db.stocks.find? (fun t => t.productId == pid) = none := hfs
      by_cases hcon : constraintsOk (applyInbound (defaultStockRow pid) q)
      · rw [if_pos hcon]
        have hsome2 : ((db.stocks ++ [defaultStockRow pid]).find?
            (fun t => t.productId == pid)).isSome = true := by
          rw [find?_append_of_none hnone,
            List.find?_cons_of_pos _ (by simp [defaultStockRow])]
          rfl
        have hfind' : (replStock (db.stocks ++ [defaultStockRow pid])
            (applyInbound (defaultStockRow pid) q)).find?
            (fun t => t.productId == pid) = some (applyInbound (defaultStockRow pid) q) :=
          find?_replStock _ (by simp [applyInbound, defaultStockRow]) hsome2
        refine ⟨?_, ?_, ?_, by simp, ?_⟩
        · unfold physOf findStock
          dsimp only
          rw [hfind', hnone]
          simp [applyInbound, defaultStockRow]
        · unfold availOf findStock
          dsimp only
          rw [hfind', hnone]
          simp [applyInbound, defaultStockRow]
        · unfold resOf findStock
          dsimp only
          rw [hfind', hnone]
          simp [applyInbound, defaultStockRow]
        · dsimp only
          rw [getLast?_append_singleton]
          simp [mkTxLog]
      · rw [if_neg hcon] at hsucc
        simp at hsucc

/-- Witness for `c9_inbound_amended` at the concrete base state. -/
theorem c9_inbound_amended_witness :
    ((inbound_stock dbA 1 50 none manager).1).1 = true ∧
    physOf (inbound_stock dbA 1 50 none manager).2 1 = physOf dbA 1 + 50 :=
  ⟨by decide, (c9_inbound_amended dbA 1 50 none manager (by decide)).1⟩

/-- Claim C10 (corrected): inbound for a product with no ledger row does
not fail with STOCK_NOT_FOUND: it inserts a fresh ledger with the model
default counts (all zero) and the DEFAULT warehouse code "3077006", then
applies the inbound quantity to it.  A caller-supplied warehouse code is
never persisted, because the in-memory assignment is followed by a save
restricted to `update_fields=["physical_stock", "available_stock"]`. -/
theorem c10_inbound_creates_ledger (db : DB) (pid : Nat) (q : Int)
    (wh : Option String) (u : User)
    (hsu : u.is_superuser = true) (hp : pid ∈ db.products)
    (hnone : findStock db pid = none) (hq : 0 ≤ q) :
    ((inbound_stock db pid q wh u).1).1 = true ∧
    (findStock (inbound_stock db pid q wh u).2 pid).map
        (fun s => (s.physical_stock, s.reserved_stock, s.available_stock,
          s.warehouse_code)) =
      some (q, 0, q, "3077006") := by
  unfold inbound_stock
  dsimp only
  rw [if_neg (by simp [hsu]), if_neg (by simp [hp]), hnone]
  dsimp only
  have hcon : constraintsOk (applyInbound (defaultStockRow pid) q) := by
    refine ⟨?_, ?_⟩ <;> simp [applyInbound, defaultStockRow, hq]
  rw [if_pos hcon]
  have hnone' : db.stocks.find? (fun t => t.productId == pid) = none := hnone
  have hsome2 : ((db.stocks ++ [defaultStockRow pid]).find?
      (fun t => t.productId == pid)).isSome = true := by
    rw [find?_append_of_none hnone',
      List.find?_cons_of_pos _ (by simp [defaultStockRow])]
    rfl
  have hfind' : (replStock (db.stocks ++ [defaultStockRow pid])
      (applyInbound (defaultStockRow pid) q)).find?
      (fun t => t.productId == pid) = some (applyInbound (defaultStockRow pid) q) :=
    find?_replStock _ (by simp [applyInbound, defaultStockRow]) hsome2
  refine ⟨rfl, ?_⟩
  unfold findStock
  dsimp only
  rw [hfind']
  simp [applyInbound, defaultStockRow]

/-- Witness for `c10_inbound_creates_ledger` at the concrete two-product
state (product 2 has no ledger). -/
theorem c10_inbound_creates_ledger_witness :
    manager.is_superuser = true ∧ 2 ∈ dbTwoProducts.products ∧
    findStock dbTwoProducts 2 = none ∧
    (findStock (inbound_stock dbTwoProducts 2 40 (some "W1") manager).2 2).map
        (fun s => (s.physical_stock, s.reserved_stock, s.available_stock,
          s.warehouse_code)) =
      some (40, 0, 40, "3077006") :=
  ⟨by decide, by decide, by decide,
    (c10_inbound_creates_ledger dbTwoProducts 2 40 (some "W1") manager
      (by decide) (by decide) (by decide) (by decide)).2⟩

end TrafficStock
